import Mathlib

/-!
Shallow embedding of the admin-panel backend (Express + SQL routes).

The relational store is modelled as lists of rows; each route handler
becomes a pure function from the store (plus the request body and any
ambient inputs such as the current month, which the code reads from the
clock) to an HTTP-style result and the updated store.  Monetary amounts
are integers (the validators only require non-negativity); month and
date fields are strings, as in the database.
-/

namespace AdminPanel

/-- A row of the `groups` table. -/
structure Group where
  id : Nat
  name : String
  teacher_name : Option String
  monthly_fee : Int
  deriving Repr, DecidableEq

/-- A row of the `students` table. -/
structure Student where
  id : Nat
  group_id : Option Nat
  full_name : String
  phone_number : Option String
  parent_phone : Option String
  join_date : String
  payment_status : String
  deriving Repr, DecidableEq

/-- A row of the `payments` table. -/
structure Payment where
  id : Nat
  student_id : Nat
  group_id : Option Nat
  amount : Int
  payment_month : String
  payment_date : String
  payment_method : String
  notes : Option String
  deriving Repr, DecidableEq

/-- A row of the `expenses` table. -/
structure Expense where
  id : Nat
  title : String
  amount : Int
  category : Option String
  expense_date : String
  expense_month : String
  notes : Option String
  deriving Repr, DecidableEq

/-- A row of the `admins` table; `password` holds the bcrypt hash. -/
structure Admin where
  id : Nat
  username : String
  password : String
  email : String
  deriving Repr, DecidableEq

/-- The whole relational store. -/
structure Store where
  groups : List Group
  students : List Student
  payments : List Payment
  expenses : List Expense
  admins : List Admin
  deriving Repr, DecidableEq

/-- Outcome of a route handler: an HTTP status with either a success
payload or an error message (the uniform `{success, data|message}`
envelope). -/
inductive ApiResult (α : Type) where
  | ok (status : Nat) (data : α)
  | err (status : Nat) (message : String)
  deriving Repr, DecidableEq

/-- The express-validator `.trim()` sanitizer: strip leading and
trailing whitespace (structural, so it evaluates in the kernel). -/
def strTrim (s : String) : String :=
  ⟨((s.data.dropWhile Char.isWhitespace).reverse.dropWhile
      Char.isWhitespace).reverse⟩

/-- JS `s.slice(0, 7)` on an ASCII date string. -/
def strTake7 (s : String) : String :=
  ⟨s.data.take 7⟩

/-- JS `x || null` where `x` is a string field that may be absent:
`undefined` and the empty string both collapse to SQL NULL. -/
def orNull (v : Option String) : Option String :=
  match v with
  | none => none
  | some s => if s = "" then none else some s

/-- JS `x || d` where `x` is a string field that may be absent:
`undefined` and the empty string both fall back to the default `d`. -/
def orDefault (v : Option String) (d : String) : String :=
  match v with
  | none => d
  | some s => if s = "" then d else s

/-- The `/^\d{4}-\d{2}$/` check used by `body('payment_month').matches`. -/
def isYYYYMM (s : String) : Bool :=
  match s.toList with
  | [a, b, c, d, dash, e, f] =>
    a.isDigit && b.isDigit && c.isDigit && d.isDigit &&
    (dash = '-') && e.isDigit && f.isDigit
  | _ => false

/-- The `body(...).isISO8601()` date check: a `YYYY-MM-DD` calendar date,
possibly followed by a time part. -/
def isISO8601Date (s : String) : Bool :=
  match s.toList with
  | a :: b :: c :: d :: dash1 :: e :: f :: dash2 :: g :: h :: _ =>
    a.isDigit && b.isDigit && c.isDigit && d.isDigit &&
    (dash1 = '-') && e.isDigit && f.isDigit && (dash2 = '-') &&
    g.isDigit && h.isDigit &&
    (let mo := (e.toNat - 48) * 10 + (f.toNat - 48)
     let da := (g.toNat - 48) * 10 + (h.toNat - 48)
     1 ≤ mo && mo ≤ 12 && 1 ≤ da && da ≤ 31)
  | _ => false

/-! Section: POST /api/payments and DELETE /api/payments/:id -/

/-- Request body of `POST /api/payments` (`student_id` is typed, matching
the `isInt` validator). -/
structure PaymentReq where
  student_id : Nat
  amount : Int
  payment_month : String
  payment_date : String
  payment_method : String
  notes : Option String
  deriving Repr, DecidableEq

/-- The express-validator chain of `POST /api/payments`. -/
def validatePaymentReq (r : PaymentReq) : Bool :=
  (0 ≤ r.amount) && isYYYYMM r.payment_month && isISO8601Date r.payment_date &&
  (r.payment_method = "cash" || r.payment_method = "card" ||
   r.payment_method = "transfer")

/-- `POST /api/payments`: validate; look up the student (404 if absent);
insert the payment denormalizing `group_id` from the student; then set
the student's `payment_status` to `'paid'` unconditionally. -/
def createPayment (st : Store) (newId : Nat) (r : PaymentReq) :
    ApiResult Payment × Store :=
  if !validatePaymentReq r then (.err 400 "Validation failed", st)
  else
    match st.students.find? (fun s => s.id = r.student_id) with
    | none => (.err 404 "Student not found", st)
    | some s =>
      let p : Payment :=
        { id := newId, student_id := r.student_id, group_id := s.group_id,
          amount := r.amount, payment_month := r.payment_month,
          payment_date := r.payment_date, payment_method := r.payment_method,
          notes := orNull r.notes }
      let st2 : Store :=
        { st with
          payments := st.payments ++ [p],
          students := st.students.map (fun s2 =>
            if s2.id = r.student_id then { s2 with payment_status := "paid" }
            else s2) }
      (.ok 201 p, st2)

/-- `DELETE /api/payments/:id`: delete the row (404 if absent, leaving the
store untouched); then count the student's remaining payments whose
`payment_month` equals the current month `cm` (read from the clock at
deletion time); if none remain, set the student's status to `'unpaid'`,
otherwise leave the students table untouched. -/
def deletePayment (st : Store) (cm : String) (pid : Nat) :
    ApiResult Unit × Store :=
  match st.payments.find? (fun p => p.id = pid) with
  | none => (.err 404 "Payment not found", st)
  | some p =>
    let st1 : Store :=
      { st with payments := st.payments.filter (fun q => ¬ q.id = pid) }
    let remaining :=
      (st1.payments.filter
        (fun q => q.student_id = p.student_id && q.payment_month = cm)).length
    let st2 : Store :=
      if remaining = 0 then
        { st1 with students := st1.students.map (fun s =>
            if s.id = p.student_id then { s with payment_status := "unpaid" }
            else s) }
      else st1
    (.ok 200 (), st2)

/-! Section: POST /api/students and PUT /api/students/:id -/

/-- Request body of `POST /api/students` (`group_id` is typed, matching
the `isInt` validator; the other optional fields may be absent). -/
structure StudentReq where
  group_id : Nat
  full_name : String
  phone_number : Option String
  parent_phone : Option String
  join_date : String
  payment_status : Option String
  deriving Repr, DecidableEq

/-- The express-validator chain shared by the student routes:
`full_name` is trimmed and must be non-empty, `join_date` must be ISO8601. -/
def validateStudentFields (full_name join_date : String) : Bool :=
  !(strTrim full_name = "") && isISO8601Date join_date

/-- `POST /api/students`: validate; check the referenced group exists
(404 `Group not found` before any insert); insert the student with
`payment_status || 'unpaid'` and optionals `|| null`. -/
def createStudent (st : Store) (newId : Nat) (r : StudentReq) :
    ApiResult Student × Store :=
  if !validateStudentFields r.full_name r.join_date then
    (.err 400 "Validation failed", st)
  else
    match st.groups.find? (fun g => g.id = r.group_id) with
    | none => (.err 404 "Group not found", st)
    | some _ =>
      let s : Student :=
        { id := newId, group_id := some r.group_id,
          full_name := strTrim r.full_name,
          phone_number := orNull r.phone_number,
          parent_phone := orNull r.parent_phone,
          join_date := r.join_date,
          payment_status := orDefault r.payment_status "unpaid" }
      (.ok 201 s, { st with students := st.students ++ [s] })

/-- Request body of `PUT /api/students/:id`: `group_id` has no validator
here and is passed straight to the query (absent becomes NULL). -/
structure StudentUpdateReq where
  group_id : Option Nat
  full_name : String
  phone_number : Option String
  parent_phone : Option String
  join_date : String
  payment_status : Option String
  deriving Repr, DecidableEq

/-- `PUT /api/students/:id`: validate; full-row UPDATE of every contract
field (optionals `|| null`, `payment_status || 'unpaid'`); 404 when no
row matched. -/
def updateStudent (st : Store) (sid : Nat) (r : StudentUpdateReq) :
    ApiResult Student × Store :=
  if !validateStudentFields r.full_name r.join_date then
    (.err 400 "Validation failed", st)
  else
    match st.students.find? (fun s => s.id = sid) with
    | none => (.err 404 "Student not found", st)
    | some s0 =>
      let s1 : Student :=
        { s0 with
          group_id := r.group_id,
          full_name := strTrim r.full_name,
          phone_number := orNull r.phone_number,
          parent_phone := orNull r.parent_phone,
          join_date := r.join_date,
          payment_status := orDefault r.payment_status "unpaid" }
      let st2 : Store :=
        { st with students := st.students.map (fun s2 =>
            if s2.id = sid then
              { s2 with
                group_id := r.group_id,
                full_name := strTrim r.full_name,
                phone_number := orNull r.phone_number,
                parent_phone := orNull r.parent_phone,
                join_date := r.join_date,
                payment_status := orDefault r.payment_status "unpaid" }
            else s2) }
      (.ok 200 s1, st2)

/-! Section: Group routes (create / update) -/

/-- Request body of `POST /api/groups` and `PUT /api/groups/:id`. -/
structure GroupReq where
  name : String
  teacher_name : Option String
  monthly_fee : Int
  deriving Repr, DecidableEq

/-- The express-validator chain of the group routes: `name` is trimmed
and must be non-empty, `monthly_fee` must be non-negative. -/
def validateGroupReq (r : GroupReq) : Bool :=
  !(strTrim r.name = "") && (0 ≤ r.monthly_fee)

/-- `POST /api/groups`: validate, insert with `teacher_name || null`. -/
def createGroup (st : Store) (newId : Nat) (r : GroupReq) :
    ApiResult Group × Store :=
  if !validateGroupReq r then (.err 400 "Validation failed", st)
  else
    let g : Group :=
      { id := newId, name := strTrim r.name,
        teacher_name := orNull r.teacher_name, monthly_fee := r.monthly_fee }
    (.ok 201 g, { st with groups := st.groups ++ [g] })

/-- `PUT /api/groups/:id`: validate; full-row UPDATE of every contract
field (`teacher_name || null`); 404 when no row matched. -/
def updateGroup (st : Store) (gid : Nat) (r : GroupReq) :
    ApiResult Group × Store :=
  if !validateGroupReq r then (.err 400 "Validation failed", st)
  else
    match st.groups.find? (fun g => g.id = gid) with
    | none => (.err 404 "Group not found", st)
    | some g0 =>
      let g1 : Group :=
        { g0 with name := strTrim r.name,
                  teacher_name := orNull r.teacher_name,
                  monthly_fee := r.monthly_fee }
      let st2 : Store :=
        { st with groups := st.groups.map (fun g2 =>
            if g2.id = gid then
              { g2 with name := strTrim r.name,
                        teacher_name := orNull r.teacher_name,
                        monthly_fee := r.monthly_fee }
            else g2) }
      (.ok 200 g1, st2)

/-! Section: Expense routes (create / update) -/

/-- Request body of `POST /api/expenses` and `PUT /api/expenses/:id`.
There is no `expense_month` field: the month is always derived. -/
structure ExpenseReq where
  title : String
  amount : Int
  category : Option String
  expense_date : String
  notes : Option String
  deriving Repr, DecidableEq

/-- The express-validator chain of the expense routes. -/
def validateExpenseReq (r : ExpenseReq) : Bool :=
  !(strTrim r.title = "") && (0 ≤ r.amount) && isISO8601Date r.expense_date

/-- `POST /api/expenses`: validate; compute
`expense_month = expense_date.slice(0, 7)`; insert with optionals
`|| null`. -/
def createExpense (st : Store) (newId : Nat) (r : ExpenseReq) :
    ApiResult Expense × Store :=
  if !validateExpenseReq r then (.err 400 "Validation failed", st)
  else
    let e : Expense :=
      { id := newId, title := strTrim r.title, amount := r.amount,
        category := orNull r.category, expense_date := r.expense_date,
        expense_month := strTake7 r.expense_date, notes := orNull r.notes }
    (.ok 201 e, { st with expenses := st.expenses ++ [e] })

/-- `PUT /api/expenses/:id`: validate; recompute
`expense_month = expense_date.slice(0, 7)` from the request's date;
full-row UPDATE of every contract field; 404 when no row matched. -/
def updateExpense (st : Store) (eid : Nat) (r : ExpenseReq) :
    ApiResult Expense × Store :=
  if !validateExpenseReq r then (.err 400 "Validation failed", st)
  else
    match st.expenses.find? (fun e => e.id = eid) with
    | none => (.err 404 "Expense not found", st)
    | some e0 =>
      let e1 : Expense :=
        { e0 with title := strTrim r.title, amount := r.amount,
                  category := orNull r.category,
                  expense_date := r.expense_date,
                  expense_month := strTake7 r.expense_date,
                  notes := orNull r.notes }
      let st2 : Store :=
        { st with expenses := st.expenses.map (fun e2 =>
            if e2.id = eid then
              { e2 with title := strTrim r.title, amount := r.amount,
                        category := orNull r.category,
                        expense_date := r.expense_date,
                        expense_month := strTake7 r.expense_date,
                        notes := orNull r.notes }
            else e2) }
      (.ok 200 e1, st2)

/-! Section: POST /api/auth/login

Two copies of the login route exist (`routes/auth.js` and an earlier
variant); they differ only in that one trims the username before the
lookup.  `compare` stands for `bcrypt.compare(plaintext, storedHash)`,
which the code awaits as an opaque boolean. -/

/-- Login request body. -/
structure LoginReq where
  username : String
  password : String
  deriving Repr, DecidableEq

/-- Login route of the main auth router: trim-and-notEmpty on username,
notEmpty on password; look up by exact username; 401 `Invalid
credentials` both when no admin matches and when the password hash
comparison fails. -/
def login (compare : String → String → Bool) (admins : List Admin)
    (r : LoginReq) : ApiResult (Nat × String × String) :=
  if strTrim r.username = "" || r.password = "" then .err 400 "Validation failed"
  else
    match admins.find? (fun a => a.username = strTrim r.username) with
    | none => .err 401 "Invalid credentials"
    | some a =>
      if !compare r.password a.password then .err 401 "Invalid credentials"
      else .ok 200 (a.id, a.username, a.email)

/-- The second login route (`src/routes/auth.js`): identical except the
username is not trimmed before the lookup. -/
def loginAlt (compare : String → String → Bool) (admins : List Admin)
    (r : LoginReq) : ApiResult (Nat × String × String) :=
  if r.username = "" || r.password = "" then .err 400 "Validation failed"
  else
    match admins.find? (fun a => a.username = r.username) with
    | none => .err 401 "Invalid credentials"
    | some a =>
      if !compare r.password a.password then .err 401 "Invalid credentials"
      else .ok 200 (a.id, a.username, a.email)

/-! Section: GET /api/dashboard/monthly-chart -/

/-- `String(i).padStart(2, '0')`. -/
def pad2 (n : Nat) : String :=
  if n < 10 then "0" ++ toString n else toString n

/-- The month token `${year}-${pad2 m}` built by the chart loop. -/
def monthString (year m : Nat) : String :=
  toString year ++ "-" ++ pad2 m

/-- Total payment amount for one month bucket: the SQL
`SUM(amount) ... GROUP BY payment_month` row that the JS `find` picks,
or 0 when no row exists for the month. -/
def monthIncome (ps : List Payment) (m : String) : Int :=
  ((ps.filter (fun p => p.payment_month = m)).map (fun p => p.amount)).sum

/-- Total expense amount for one month bucket (as `monthIncome`). -/
def monthExpenses (es : List Expense) (m : String) : Int :=
  ((es.filter (fun e => e.expense_month = m)).map (fun e => e.amount)).sum

/-- One entry of the monthly chart. -/
structure MonthEntry where
  month : String
  income : Int
  expenses : Int
  profit : Int
  deriving Repr, DecidableEq

/-- `GET /api/dashboard/monthly-chart`: the loop
`for (let i = 1; i <= 12; i++)` building one zero-filled entry per
calendar month of the requested year. -/
def monthlyChart (st : Store) (year : Nat) : List MonthEntry :=
  (List.range 12).map (fun i =>
    let m := monthString year (i + 1)
    let income := monthIncome st.payments m
    let expenses := monthExpenses st.expenses m
    { month := m, income := income, expenses := expenses,
      profit := income - expenses })

/-! Section: GET /api/dashboard/top-groups -/

/-- One row of the top-groups result set. -/
structure GroupRow where
  id : Nat
  name : String
  teacher_name : Option String
  monthly_fee : Int
  student_count : Nat
  paid_students : Nat
  payment_rate : ℚ
  deriving Repr, DecidableEq

/-- SQL `ROUND(x, 2)` on the rate expression. -/
def round2 (q : ℚ) : ℚ := (round (q * 100) : ℚ) / 100

/-- `COUNT(DISTINCT s.id)` over the students left-joined to group `g`. -/
def studentCount (students : List Student) (g : Group) : Nat :=
  (((students.filter (fun s => s.group_id = some g.id)).map
      (fun s => s.id)).dedup).length

/-- `COUNT(DISTINCT CASE WHEN s.payment_status = 'paid' THEN s.id END)`
for group `g`. -/
def paidStudents (students : List Student) (g : Group) : Nat :=
  ((((students.filter (fun s => s.group_id = some g.id)).filter
      (fun s => s.payment_status = "paid")).map (fun s => s.id)).dedup).length

/-- The aggregated row for one group: the two distinct counts (the SQL
repeats the COUNT expressions) and the guarded
`CASE WHEN count > 0 THEN paid/count*100 ELSE 0` rate rounded to 2
decimals. -/
def groupRow (students : List Student) (g : Group) : GroupRow :=
  { id := g.id, name := g.name, teacher_name := g.teacher_name,
    monthly_fee := g.monthly_fee,
    student_count := studentCount students g,
    paid_students := paidStudents students g,
    payment_rate :=
      if 0 < studentCount students g then
        round2 ((paidStudents students g : ℚ) /
          (studentCount students g : ℚ) * 100)
      else 0 }

/-- `ORDER BY student_count DESC, payment_rate DESC` as a boolean
comparison. -/
def topGroupsLE (a b : GroupRow) : Bool :=
  b.student_count < a.student_count ||
  (a.student_count = b.student_count && b.payment_rate ≤ a.payment_rate)

/-- `GET /api/dashboard/top-groups`: aggregate per group, order by
student count then payment rate (both descending), `LIMIT 10`. -/
def topGroups (st : Store) : List GroupRow :=
  ((st.groups.map (groupRow st.students)).mergeSort topGroupsLE).take 10

/-! Section: Concrete sample data used to instantiate the theorems -/

/-- A sample group. -/
def gA : Group :=
  { id := 1, name := "Alpha", teacher_name := some "Tom", monthly_fee := 100 }

/-- A sample student of group 1, currently unpaid. -/
def sA : Student :=
  { id := 1, group_id := some 1, full_name := "Ann", phone_number := none,
    parent_phone := none, join_date := "2024-01-10",
    payment_status := "unpaid" }

/-- A sample payment by student 1 for 2024-01. -/
def pA : Payment :=
  { id := 1, student_id := 1, group_id := some 1, amount := 50,
    payment_month := "2024-01", payment_date := "2024-01-15",
    payment_method := "cash", notes := none }

/-- A sample admin row. -/
def adminA : Admin :=
  { id := 1, username := "root", password := "hash1", email := "r@x.y" }

/-- A small sample store. -/
def store0 : Store :=
  { groups := [gA], students := [sA], payments := [pA], expenses := [],
    admins := [adminA] }

/-- A valid payment-creation request for a past month. -/
def reqPay : PaymentReq :=
  { student_id := 1, amount := 70, payment_month := "2023-11",
    payment_date := "2023-11-05", payment_method := "card", notes := none }

end AdminPanel

namespace AdminPanel

/-! Section: Claims -/

/-- Claim C1: Every payment-creation request that passes validation and
whose `student_id` refers to an existing student results in the Payment
row being inserted and the student's `payment_status` set to `'paid'`
unconditionally — for every `payment_month`, current or not. -/
theorem create_payment_sets_status_paid (st : Store) (nid : Nat)
    (r : PaymentReq) (hv : validatePaymentReq r = true) (s : Student)
    (hs : st.students.find? (fun x => x.id = r.student_id) = some s) :
    ∃ p st2, createPayment st nid r = (.ok 201 p, st2) ∧
      p.payment_month = r.payment_month ∧
      st2.payments = st.payments ++ [p] ∧
      ∀ s2 ∈ st2.students, s2.id = r.student_id →
        s2.payment_status = "paid" := by
  simp only [createPayment, hv, Bool.not_true, Bool.false_eq_true,
    if_false, hs]
  refine ⟨_, _, rfl, rfl, rfl, ?_⟩
  intro s2 hmem hid
  simp only [List.mem_map] at hmem
  obtain ⟨s3, _, rfl⟩ := hmem
  by_cases h3 : s3.id = r.student_id
  · simp [h3]
  · rw [if_neg h3] at hid
    exact absurd hid h3

/-- Witness for C1: a payment for past month `2023-11` still flips
student 1 of the sample store to `paid`. -/
theorem create_payment_sets_status_paid_witness :
    ∃ p st2, createPayment store0 2 reqPay = (.ok 201 p, st2) ∧
      p.payment_month = reqPay.payment_month ∧
      st2.payments = store0.payments ++ [p] ∧
      ∀ s2 ∈ st2.students, s2.id = reqPay.student_id →
        s2.payment_status = "paid" :=
  create_payment_sets_status_paid store0 2 reqPay (by decide) sA (by decide)

/-- Claim C2: Deleting an existing payment removes the row; then, if the
student has zero remaining payments for the current calendar month `cm`
(as read from the clock at deletion time), the student's status is set
to `'unpaid'`; if at least one remains, the students table is left
untouched. -/
theorem delete_payment_reconciles (st : Store) (cm : String) (pid : Nat)
    (p : Payment)
    (hp : st.payments.find? (fun q => q.id = pid) = some p) :
    ∃ st2, deletePayment st cm pid = (.ok 200 (), st2) ∧
      st2.payments = st.payments.filter (fun q => ¬ q.id = pid) ∧
      (((st.payments.filter (fun q => ¬ q.id = pid)).filter
          (fun q => q.student_id = p.student_id && q.payment_month = cm)).length
            = 0 →
        ∀ s2 ∈ st2.students, s2.id = p.student_id →
          s2.payment_status = "unpaid") ∧
      (((st.payments.filter (fun q => ¬ q.id = pid)).filter
          (fun q => q.student_id = p.student_id && q.payment_month = cm)).length
            ≠ 0 →
        st2.students = st.students) := by
  simp only [deletePayment, hp]
  by_cases h0 :
      ((st.payments.filter (fun q => ¬ q.id = pid)).filter
        (fun q => q.student_id = p.student_id && q.payment_month = cm)).length
          = 0
  · refine ⟨_, by rw [if_pos h0], rfl, fun _ => ?_,
      fun hne => absurd h0 hne⟩
    intro s2 hmem hid
    simp only [List.mem_map] at hmem
    obtain ⟨s3, _, rfl⟩ := hmem
    by_cases h3 : s3.id = p.student_id
    · simp [h3]
    · rw [if_neg h3] at hid
      exact absurd hid h3
  · exact ⟨{ st with payments := st.payments.filter (fun q => ¬ q.id = pid) },
      by rw [if_neg h0], rfl, fun hz => absurd hz h0, fun _ => rfl⟩

/-- Witness for C2: deleting the only payment of student 1 in the sample
store, with the clock at `2024-01`, flips the student to `unpaid`. -/
theorem delete_payment_reconciles_witness :
    ∃ st2, deletePayment store0 "2024-01" 1 = (.ok 200 (), st2) ∧
      st2.payments = store0.payments.filter (fun q => ¬ q.id = 1) ∧
      (((store0.payments.filter (fun q => ¬ q.id = 1)).filter
          (fun q => q.student_id = pA.student_id &&
            q.payment_month = "2024-01")).length = 0 →
        ∀ s2 ∈ st2.students, s2.id = pA.student_id →
          s2.payment_status = "unpaid") ∧
      (((store0.payments.filter (fun q => ¬ q.id = 1)).filter
          (fun q => q.student_id = pA.student_id &&
            q.payment_month = "2024-01")).length ≠ 0 →
        st2.students = store0.students) :=
  delete_payment_reconciles store0 "2024-01" 1 pA (by decide)

/-- Claim C3: Deleting the same payment id twice: the first deletion
succeeds, the second returns 404 `Payment not found` and leaves the
store exactly as the first deletion left it. -/
theorem delete_payment_twice (st : Store) (cm cm2 : String) (pid : Nat)
    (h : ∃ pp ∈ st.payments, pp.id = pid) :
    (deletePayment st cm pid).1 = .ok 200 () ∧
    deletePayment (deletePayment st cm pid).2 cm2 pid =
      (.err 404 "Payment not found", (deletePayment st cm pid).2) := by
  obtain ⟨pp, hmem, hid⟩ := h
  have hsome : ∃ q, st.payments.find? (fun q => q.id = pid) = some q := by
    have h1 : (st.payments.find? (fun q => q.id = pid)).isSome := by
      rw [List.find?_isSome]
      exact ⟨pp, hmem, by simpa using hid⟩
    exact Option.isSome_iff_exists.mp h1
  obtain ⟨q, hq⟩ := hsome
  have hpay : (deletePayment st cm pid).2.payments
      = st.payments.filter (fun r => ¬ r.id = pid) := by
    simp only [deletePayment, hq]
    by_cases h0 :
        ((st.payments.filter (fun r => ¬ r.id = pid)).filter
          (fun r => r.student_id = q.student_id && r.payment_month = cm)).length
            = 0
    · rw [if_pos h0]
    · rw [if_neg h0]
  have hnone :
      (deletePayment st cm pid).2.payments.find? (fun r => r.id = pid)
        = none := by
    rw [hpay, List.find?_eq_none]
    intro x hx
    have hfx := List.mem_filter.mp hx
    simpa using hfx.2
  constructor
  · simp only [deletePayment, hq]
  · generalize hst2 : (deletePayment st cm pid).2 = st2 at hnone
    simp only [deletePayment, hnone]

/-- Witness for C3: double deletion of payment 1 in the sample store. -/
theorem delete_payment_twice_witness :
    (deletePayment store0 "2024-01" 1).1 = .ok 200 () ∧
    deletePayment (deletePayment store0 "2024-01" 1).2 "2024-02" 1 =
      (.err 404 "Payment not found", (deletePayment store0 "2024-01" 1).2) :=
  delete_payment_twice store0 "2024-01" "2024-02" 1 ⟨pA, by decide, by decide⟩

/-- A student-creation request that fails field validation (empty
`full_name`) and also references the absent group 99. -/
def badStudentReq : StudentReq :=
  { group_id := 99, full_name := "", phone_number := none,
    parent_phone := none, join_date := "2024-01-10",
    payment_status := none }

/-- A student-creation request passing field validation but referencing
the absent group 99. -/
def reqStudent99 : StudentReq :=
  { group_id := 99, full_name := "Bob", phone_number := none,
    parent_phone := none, join_date := "2024-01-10",
    payment_status := none }

/-- Claim C4 counterexample: A creation request whose `group_id` refers to
no existing group but which also fails field validation returns 400, not
NotFoundError: validation short-circuits before the group check, so the
claim's unconditional quantification over all requests fails. -/
theorem create_student_missing_group_cex :
    store0.groups.find? (fun g => g.id = badStudentReq.group_id) = none ∧
    createStudent store0 5 badStudentReq =
      (.err 400 "Validation failed", store0) ∧
    (ApiResult.err 400 "Validation failed" : ApiResult Student) ≠
      .err 404 "Group not found" := by
  exact ⟨by decide, by decide, by decide⟩

/-- Claim C4 as amended: For every student-creation request that passes field
validation and whose `group_id` refers to no existing group, the
operation returns 404 `Group not found` and the store — in particular
the students table — is unchanged. -/
theorem create_student_missing_group (st : Store) (nid : Nat)
    (r : StudentReq)
    (hv : validateStudentFields r.full_name r.join_date = true)
    (hg : st.groups.find? (fun g => g.id = r.group_id) = none) :
    createStudent st nid r = (.err 404 "Group not found", st) := by
  simp only [createStudent, hv, Bool.not_true, Bool.false_eq_true,
    if_false, hg]

/-- Witness for the amended C4: a valid request for absent group 99. -/
theorem create_student_missing_group_witness :
    createStudent store0 5 reqStudent99 =
      (.err 404 "Group not found", store0) :=
  create_student_missing_group store0 5 reqStudent99 (by decide) (by decide)

/-- Invariant: every expense row's `expense_month` is the 7-character
prefix of its `expense_date`. -/
abbrev expensesMonthOK (st : Store) : Prop :=
  ∀ e ∈ st.expenses, e.expense_month = strTake7 e.expense_date

/-- Claim C7: Expense creation and update always store
`expense_month = expense_date.slice(0, 7)`, recomputed from the
request's date (the request carries no month field), so the derived
month invariant is preserved by every expense operation and the returned
row satisfies it. -/
theorem expense_month_derived (st : Store) (nid eid : Nat)
    (rc ru : ExpenseReq) (h : expensesMonthOK st) :
    expensesMonthOK (createExpense st nid rc).2 ∧
    expensesMonthOK (updateExpense st eid ru).2 ∧
    (∀ e st2, createExpense st nid rc = (.ok 201 e, st2) →
      e.expense_month = strTake7 rc.expense_date) ∧
    (∀ e st2, updateExpense st eid ru = (.ok 200 e, st2) →
      e.expense_month = strTake7 ru.expense_date) := by
  refine ⟨?_, ?_, ?_, ?_⟩
  · by_cases hv : validateExpenseReq rc = true
    · simp only [createExpense, hv, Bool.not_true, Bool.false_eq_true,
        if_false]
      intro e2 hmem
      rcases List.mem_append.mp hmem with hold | hnew
      · exact h e2 hold
      · rw [List.mem_singleton] at hnew
        subst hnew
        rfl
    · rw [Bool.not_eq_true] at hv
      simp only [createExpense, hv, Bool.not_false, if_true]
      exact h
  · by_cases hv : validateExpenseReq ru = true
    · rcases hfind : st.expenses.find? (fun e => e.id = eid) with _ | e0
      · simp only [updateExpense, hv, Bool.not_true, Bool.false_eq_true,
          if_false, hfind]
        exact h
      · simp only [updateExpense, hv, Bool.not_true, Bool.false_eq_true,
          if_false, hfind]
        intro e2 hmem
        simp only [List.mem_map] at hmem
        obtain ⟨e3, he3, rfl⟩ := hmem
        by_cases h3 : e3.id = eid
        · rw [if_pos h3]
        · rw [if_neg h3]
          exact h e3 he3
    · rw [Bool.not_eq_true] at hv
      simp only [updateExpense, hv, Bool.not_false, if_true]
      exact h
  · intro e st2 heq
    by_cases hv : validateExpenseReq rc = true
    · simp only [createExpense, hv, Bool.not_true, Bool.false_eq_true,
        if_false] at heq
      cases heq
      rfl
    · rw [Bool.not_eq_true] at hv
      simp only [createExpense, hv, Bool.not_false, if_true] at heq
      exact absurd (congrArg Prod.fst heq) (by simp)
  · intro e st2 heq
    by_cases hv : validateExpenseReq ru = true
    · rcases hfind : st.expenses.find? (fun x => x.id = eid) with _ | e0
      · simp only [updateExpense, hv, Bool.not_true, Bool.false_eq_true,
          if_false, hfind] at heq
        exact absurd (congrArg Prod.fst heq) (by simp)
      · simp only [updateExpense, hv, Bool.not_true, Bool.false_eq_true,
          if_false, hfind] at heq
        cases heq
        rfl
    · rw [Bool.not_eq_true] at hv
      simp only [updateExpense, hv, Bool.not_false, if_true] at heq
      exact absurd (congrArg Prod.fst heq) (by simp)

/-- A stored expense used by the witnesses. -/
def eOld : Expense :=
  { id := 1, title := "Rent", amount := 10, category := some "office",
    expense_date := "2024-03-15", expense_month := "2024-03",
    notes := some "x" }

/-- A store holding one expense. -/
def storeE : Store :=
  { groups := [], students := [], payments := [], expenses := [eOld],
    admins := [] }

/-- An expense request that omits the optional `category` and `notes`. -/
def reqE : ExpenseReq :=
  { title := "Food", amount := 20, category := none,
    expense_date := "2024-04-01", notes := none }

/-- Witness for C7: creating and updating with date `2024-04-01` stores
month `2024-04` and keeps the invariant on the sample store. -/
theorem expense_month_derived_witness :
    expensesMonthOK (createExpense storeE 2 reqE).2 ∧
    expensesMonthOK (updateExpense storeE 1 reqE).2 ∧
    (∀ e st2, createExpense storeE 2 reqE = (.ok 201 e, st2) →
      e.expense_month = strTake7 reqE.expense_date) ∧
    (∀ e st2, updateExpense storeE 1 reqE = (.ok 200 e, st2) →
      e.expense_month = strTake7 reqE.expense_date) :=
  expense_month_derived storeE 2 1 reqE reqE (by decide)

/-- A stored group used by the update witnesses. -/
def storeG : Store :=
  { groups := [gA], students := [], payments := [], expenses := [],
    admins := [] }

/-- A group request omitting the optional `teacher_name`. -/
def reqG : GroupReq :=
  { name := "Beta", teacher_name := none, monthly_fee := 5 }

/-- A stored student with every optional field populated and status
`paid`. -/
def sOld : Student :=
  { id := 1, group_id := some 1, full_name := "Old",
    phone_number := some "11", parent_phone := some "22",
    join_date := "2024-01-01", payment_status := "paid" }

/-- A store holding `sOld`. -/
def storeS : Store :=
  { groups := [gA], students := [sOld], payments := [], expenses := [],
    admins := [] }

/-- A student update request that omits every optional field, including
`payment_status`. -/
def reqOmit : StudentUpdateReq :=
  { group_id := none, full_name := "New", phone_number := none,
    parent_phone := none, join_date := "2024-02-02",
    payment_status := none }

/-- The row `sOld` becomes after `reqOmit` is applied. -/
def sNew : Student :=
  { id := 1, group_id := none, full_name := "New", phone_number := none,
    parent_phone := none, join_date := "2024-02-02",
    payment_status := "unpaid" }

/-- The expense row `eOld` becomes after `reqE` is applied. -/
def eNew : Expense :=
  { id := 1, title := "Food", amount := 20, category := none,
    expense_date := "2024-04-01", expense_month := "2024-04",
    notes := none }

/-- The group row `gA` becomes after `reqG` is applied. -/
def gNew : Group :=
  { id := 1, name := "Beta", teacher_name := none, monthly_fee := 5 }

/-- Claim C8: Expense, group and student updates have full-row replace
semantics: on success, every contract field of the matched row equals a
function of the request alone — optional fields omitted from the request
come out as `orNull none = none` (SQL NULL), never as the old value. -/
theorem update_full_row_replace (stE stG stS : Store) (eid gid sid : Nat)
    (re : ExpenseReq) (rg : GroupReq) (rs : StudentUpdateReq) :
    (∀ e st2, updateExpense stE eid re = (.ok 200 e, st2) →
      ∀ e2 ∈ st2.expenses, e2.id = eid →
        e2.title = strTrim re.title ∧ e2.amount = re.amount ∧
        e2.category = orNull re.category ∧
        e2.expense_date = re.expense_date ∧
        e2.expense_month = strTake7 re.expense_date ∧
        e2.notes = orNull re.notes) ∧
    (∀ g st2, updateGroup stG gid rg = (.ok 200 g, st2) →
      ∀ g2 ∈ st2.groups, g2.id = gid →
        g2.name = strTrim rg.name ∧
        g2.teacher_name = orNull rg.teacher_name ∧
        g2.monthly_fee = rg.monthly_fee) ∧
    (∀ s st2, updateStudent stS sid rs = (.ok 200 s, st2) →
      ∀ s2 ∈ st2.students, s2.id = sid →
        s2.group_id = rs.group_id ∧ s2.full_name = strTrim rs.full_name ∧
        s2.phone_number = orNull rs.phone_number ∧
        s2.parent_phone = orNull rs.parent_phone ∧
        s2.join_date = rs.join_date ∧
        s2.payment_status = orDefault rs.payment_status "unpaid") := by
  refine ⟨?_, ?_, ?_⟩
  · intro e st2 heq
    by_cases hv : validateExpenseReq re = true
    · rcases hfind : stE.expenses.find? (fun x => x.id = eid) with _ | e0
      · simp only [updateExpense, hv, Bool.not_true, Bool.false_eq_true,
          if_false, hfind] at heq
        exact absurd (congrArg Prod.fst heq) (by simp)
      · simp only [updateExpense, hv, Bool.not_true, Bool.false_eq_true,
          if_false, hfind] at heq
        cases heq
        intro e2 hmem hid
        simp only [List.mem_map] at hmem
        obtain ⟨e3, _, rfl⟩ := hmem
        by_cases h3 : e3.id = eid
        · rw [if_pos h3]
          exact ⟨rfl, rfl, rfl, rfl, rfl, rfl⟩
        · rw [if_neg h3] at hid
          exact absurd hid h3
    · rw [Bool.not_eq_true] at hv
      simp only [updateExpense, hv, Bool.not_false, if_true] at heq
      exact absurd (congrArg Prod.fst heq) (by simp)
  · intro g st2 heq
    by_cases hv : validateGroupReq rg = true
    · rcases hfind : stG.groups.find? (fun x => x.id = gid) with _ | g0
      · simp only [updateGroup, hv, Bool.not_true, Bool.false_eq_true,
          if_false, hfind] at heq
        exact absurd (congrArg Prod.fst heq) (by simp)
      · simp only [updateGroup, hv, Bool.not_true, Bool.false_eq_true,
          if_false, hfind] at heq
        cases heq
        intro g2 hmem hid
        simp only [List.mem_map] at hmem
        obtain ⟨g3, _, rfl⟩ := hmem
        by_cases h3 : g3.id = gid
        · rw [if_pos h3]
          exact ⟨rfl, rfl, rfl⟩
        · rw [if_neg h3] at hid
          exact absurd hid h3
    · rw [Bool.not_eq_true] at hv
      simp only [updateGroup, hv, Bool.not_false, if_true] at heq
      exact absurd (congrArg Prod.fst heq) (by simp)
  · intro s2r st2 heq
    by_cases hv : validateStudentFields rs.full_name rs.join_date = true
    · rcases hfind : stS.students.find? (fun x => x.id = sid) with _ | s0
      · simp only [updateStudent, hv, Bool.not_true, Bool.false_eq_true,
          if_false, hfind] at heq
        exact absurd (congrArg Prod.fst heq) (by simp)
      · simp only [updateStudent, hv, Bool.not_true, Bool.false_eq_true,
          if_false, hfind] at heq
        cases heq
        intro s2 hmem hid
        simp only [List.mem_map] at hmem
        obtain ⟨s3, _, rfl⟩ := hmem
        by_cases h3 : s3.id = sid
        · rw [if_pos h3]
          exact ⟨rfl, rfl, rfl, rfl, rfl, rfl⟩
        · rw [if_neg h3] at hid
          exact absurd hid h3
    · rw [Bool.not_eq_true] at hv
      simp only [updateStudent, hv, Bool.not_false, if_true] at heq
      exact absurd (congrArg Prod.fst heq) (by simp)

/-- Witness for C8: running the three updates on the sample stores, the
replaced rows' fields all equal the request-derived values; in
particular every omitted optional comes out NULL and the old values
`some "11"`, `some "22"`, `some "office"`, `some "Tom"` are gone. -/
theorem update_full_row_replace_witness :
    (eNew.title = strTrim reqE.title ∧ eNew.amount = reqE.amount ∧
     eNew.category = orNull reqE.category ∧
     eNew.expense_date = reqE.expense_date ∧
     eNew.expense_month = strTake7 reqE.expense_date ∧
     eNew.notes = orNull reqE.notes) ∧
    (gNew.name = strTrim reqG.name ∧
     gNew.teacher_name = orNull reqG.teacher_name ∧
     gNew.monthly_fee = reqG.monthly_fee) ∧
    (sNew.group_id = reqOmit.group_id ∧
     sNew.full_name = strTrim reqOmit.full_name ∧
     sNew.phone_number = orNull reqOmit.phone_number ∧
     sNew.parent_phone = orNull reqOmit.parent_phone ∧
     sNew.join_date = reqOmit.join_date ∧
     sNew.payment_status = orDefault reqOmit.payment_status "unpaid") := by
  obtain ⟨he, hg, hs⟩ :=
    update_full_row_replace storeE storeG storeS 1 1 1 reqE reqG reqOmit
  exact ⟨he eNew { storeE with expenses := [eNew] } (by decide) eNew
      (by decide) (by decide),
    hg gNew { storeG with groups := [gNew] } (by decide) gNew
      (by decide) (by decide),
    hs sNew { storeS with students := [sNew] } (by decide) sNew
      (by decide) (by decide)⟩

/-- A store with one group and one student and no payments at all. -/
def storeNoPay : Store :=
  { groups := [gA], students := [sA], payments := [], expenses := [],
    admins := [] }

/-- A creation request supplying `payment_status = 'paid'`. -/
def reqPaid : StudentReq :=
  { group_id := 1, full_name := "Cara", phone_number := none,
    parent_phone := none, join_date := "2024-02-01",
    payment_status := some "paid" }

/-- The student row `reqPaid` creates. -/
def sCara : Student :=
  { id := 2, group_id := some 1, full_name := "Cara",
    phone_number := none, parent_phone := none,
    join_date := "2024-02-01", payment_status := "paid" }

/-- Claim C10: `payment_status` is taken from the request body and
defaults to `'unpaid'`: a creation request carrying `'paid'` stores a
paid student even though the store has zero payment rows; and every
successful update whose request omits `payment_status` stores
`'unpaid'` — not NULL and not the old value. -/
theorem student_status_from_request (st : Store) (sid : Nat)
    (r : StudentUpdateReq) (hr : r.payment_status = none) :
    (∃ st2, createStudent storeNoPay 2 reqPaid = (.ok 201 sCara, st2) ∧
      sCara.payment_status = "paid" ∧ st2.payments = []) ∧
    (∀ s st2, updateStudent st sid r = (.ok 200 s, st2) →
      s.payment_status = "unpaid" ∧
      ∀ s2 ∈ st2.students, s2.id = sid →
        s2.payment_status = "unpaid") := by
  constructor
  · exact ⟨{ storeNoPay with students := storeNoPay.students ++ [sCara] },
      by decide, by decide, by decide⟩
  · intro s st2 heq
    by_cases hv : validateStudentFields r.full_name r.join_date = true
    · rcases hfind : st.students.find? (fun x => x.id = sid) with _ | s0
      · simp only [updateStudent, hv, Bool.not_true, Bool.false_eq_true,
          if_false, hfind] at heq
        exact absurd (congrArg Prod.fst heq) (by simp)
      · simp only [updateStudent, hv, Bool.not_true, Bool.false_eq_true,
          if_false, hfind] at heq
        cases heq
        refine ⟨by rw [hr]; rfl, ?_⟩
        intro s2 hmem hid
        simp only [List.mem_map] at hmem
        obtain ⟨s3, _, rfl⟩ := hmem
        by_cases h3 : s3.id = sid
        · rw [if_pos h3]
          rw [hr]
          rfl
        · rw [if_neg h3] at hid
          exact absurd hid h3
    · rw [Bool.not_eq_true] at hv
      simp only [updateStudent, hv, Bool.not_false, if_true] at heq
      exact absurd (congrArg Prod.fst heq) (by simp)

/-- Witness for C10: applying the theorem to `reqOmit` (which omits
`payment_status`) over the store holding the paid student `sOld`. -/
theorem student_status_from_request_witness :
    sNew.payment_status = "unpaid" ∧ sNew.payment_status ≠ sOld.payment_status :=
  ⟨((student_status_from_request storeS 1 reqOmit rfl).2 sNew
      { storeS with students := [sNew] } (by decide)).1,
   by decide⟩

/-- Claim C9: Two login attempts that pass field validation — one whose
username matches no admin, one whose username matches but whose password
comparison fails — receive the same response: status 401, message
`Invalid credentials`, in both login route variants, so the two failure
causes are indistinguishable to the caller. -/
theorem login_failures_indistinguishable
    (compare : String → String → Bool) (admins : List Admin)
    (r1 r2 : LoginReq) (a : Admin)
    (h1u : ¬ strTrim r1.username = "") (h1p : ¬ r1.password = "")
    (h2u : ¬ strTrim r2.username = "") (h2p : ¬ r2.password = "")
    (hnone : admins.find? (fun x => x.username = strTrim r1.username) = none)
    (hfound : admins.find? (fun x => x.username = strTrim r2.username)
      = some a)
    (hmis : compare r2.password a.password = false)
    (hnoneA : admins.find? (fun x => x.username = r1.username) = none)
    (hfoundA : admins.find? (fun x => x.username = r2.username) = some a) :
    login compare admins r1 = .err 401 "Invalid credentials" ∧
    login compare admins r2 = .err 401 "Invalid credentials" ∧
    login compare admins r1 = login compare admins r2 ∧
    loginAlt compare admins r1 = .err 401 "Invalid credentials" ∧
    loginAlt compare admins r2 = .err 401 "Invalid credentials" := by
  have h1uA : ¬ r1.username = "" := by
    intro h
    exact h1u (by rw [h]; rfl)
  have h2uA : ¬ r2.username = "" := by
    intro h
    exact h2u (by rw [h]; rfl)
  have c1 : (strTrim r1.username = "" || r1.password = "" : Bool) = false := by
    simp [h1u, h1p]
  have c2 : (strTrim r2.username = "" || r2.password = "" : Bool) = false := by
    simp [h2u, h2p]
  have c1A : (r1.username = "" || r1.password = "" : Bool) = false := by
    simp [h1uA, h1p]
  have c2A : (r2.username = "" || r2.password = "" : Bool) = false := by
    simp [h2uA, h2p]
  have g1 : login compare admins r1 = .err 401 "Invalid credentials" := by
    simp only [login, c1, Bool.false_eq_true, if_false, hnone]
  have g2 : login compare admins r2 = .err 401 "Invalid credentials" := by
    simp only [login, c2, Bool.false_eq_true, if_false, hfound, hmis,
      Bool.not_false, if_true]
  refine ⟨g1, g2, by rw [g1, g2], ?_, ?_⟩
  · simp only [loginAlt, c1A, Bool.false_eq_true, if_false, hnoneA]
  · simp only [loginAlt, c2A, Bool.false_eq_true, if_false, hfoundA, hmis,
      Bool.not_false, if_true]

/-- A ghost login attempt: no admin named `ghost` exists. -/
def reqGhost : LoginReq := { username := "ghost", password := "pw" }

/-- A wrong-password attempt against the stored admin `root`. -/
def reqWrongPw : LoginReq := { username := "root", password := "bad" }

/-- A stand-in for `bcrypt.compare`: plain equality with the stored
hash, which fails for `bad` vs `hash1`. -/
def eqCompare (p h : String) : Bool := p = h

/-- Witness for C9: against the sample admin table, the unknown-user
attempt and the wrong-password attempt both get 401
`Invalid credentials`. -/
theorem login_failures_indistinguishable_witness :
    login eqCompare [adminA] reqGhost = .err 401 "Invalid credentials" ∧
    login eqCompare [adminA] reqWrongPw = .err 401 "Invalid credentials" ∧
    login eqCompare [adminA] reqGhost = login eqCompare [adminA] reqWrongPw ∧
    loginAlt eqCompare [adminA] reqGhost = .err 401 "Invalid credentials" ∧
    loginAlt eqCompare [adminA] reqWrongPw
      = .err 401 "Invalid credentials" :=
  login_failures_indistinguishable eqCompare [adminA] reqGhost reqWrongPw
    adminA (by decide) (by decide) (by decide) (by decide) (by decide)
    (by decide) (by decide) (by decide) (by decide)

/-- What C5 asserts of one chart entry: the chart has exactly 12
entries; entry `i` (0-based) carries the `i+1`-th month token of the
year (so the entries run January through December), its income and
expenses are the month's sums, its profit is income minus expenses, and
a month with no payment and no expense rows is zero-filled. -/
def monthlyChartEntryOK (st : Store) (year i : Nat) : Prop :=
  (monthlyChart st year).length = 12 ∧
  ∃ e, (monthlyChart st year)[i]? = some e ∧
    e.month = monthString year (i + 1) ∧
    e.income = monthIncome st.payments (monthString year (i + 1)) ∧
    e.expenses = monthExpenses st.expenses (monthString year (i + 1)) ∧
    e.profit = e.income - e.expenses ∧
    ((st.payments.filter
        (fun p => p.payment_month = monthString year (i + 1)) = [] ∧
      st.expenses.filter
        (fun x => x.expense_month = monthString year (i + 1)) = []) →
      e.income = 0 ∧ e.expenses = 0 ∧ e.profit = 0)

/-- Claim C5: For every store, year and month index `i < 12`, the monthly
chart has exactly 12 entries in January-to-December order, entry
profits equal income minus expenses, and empty months are zero-filled. -/
theorem monthly_chart_entries (st : Store) (year i : Nat) (h : i < 12) :
    monthlyChartEntryOK st year i := by
  refine ⟨by simp [monthlyChart], ?_⟩
  refine ⟨{ month := monthString year (i + 1),
            income := monthIncome st.payments (monthString year (i + 1)),
            expenses := monthExpenses st.expenses (monthString year (i + 1)),
            profit := monthIncome st.payments (monthString year (i + 1)) -
              monthExpenses st.expenses (monthString year (i + 1)) },
    ?_, rfl, rfl, rfl, rfl, ?_⟩
  · rw [monthlyChart, List.getElem?_map, List.getElem?_range h,
      Option.map_some']
  · rintro ⟨hp, hx⟩
    have hi : monthIncome st.payments (monthString year (i + 1)) = 0 := by
      rw [monthIncome, hp]
      rfl
    have he : monthExpenses st.expenses (monthString year (i + 1)) = 0 := by
      rw [monthExpenses, hx]
      rfl
    exact ⟨hi, he, by rw [hi, he]; rfl⟩

/-- Witness for C5: the January entry of the sample store's 2024 chart. -/
theorem monthly_chart_entries_witness : monthlyChartEntryOK store0 2024 0 :=
  monthly_chart_entries store0 2024 0 (by decide)

/-- The top-groups comparison is transitive. -/
theorem topGroupsLE_trans (a b c : GroupRow) (hab : topGroupsLE a b = true)
    (hbc : topGroupsLE b c = true) : topGroupsLE a c = true := by
  simp only [topGroupsLE, Bool.or_eq_true, Bool.and_eq_true,
    decide_eq_true_eq] at hab hbc ⊢
  rcases hab with h | ⟨h1, h2⟩ <;> rcases hbc with h' | ⟨h1', h2'⟩
  · exact Or.inl (lt_trans h' h)
  · exact Or.inl (h1' ▸ h)
  · exact Or.inl (h1.symm ▸ h')
  · exact Or.inr ⟨h1.trans h1', le_trans h2' h2⟩

/-- The top-groups comparison is total. -/
theorem topGroupsLE_total (a b : GroupRow) :
    (topGroupsLE a b || topGroupsLE b a) = true := by
  simp only [topGroupsLE, Bool.or_eq_true, Bool.and_eq_true,
    decide_eq_true_eq]
  rcases Nat.lt_trichotomy a.student_count b.student_count with h | h | h
  · exact Or.inr (Or.inl h)
  · rcases le_total b.payment_rate a.payment_rate with hr | hr
    · exact Or.inl (Or.inr ⟨h, hr⟩)
    · exact Or.inr (Or.inr ⟨h.symm, hr⟩)
  · exact Or.inl (Or.inl h)

/-- The rate of one aggregated group row: exactly 0 for an empty group,
the rounded percentage otherwise. -/
theorem groupRow_rate (students : List Student) (g : Group) :
    ((groupRow students g).student_count = 0 →
      (groupRow students g).payment_rate = 0) ∧
    (0 < (groupRow students g).student_count →
      (groupRow students g).payment_rate =
        round2 (((groupRow students g).paid_students : ℚ) /
          ((groupRow students g).student_count : ℚ) * 100)) := by
  constructor
  · intro h0
    simp only [groupRow] at h0 ⊢
    rw [if_neg (by omega)]
  · intro hpos
    simp only [groupRow] at hpos ⊢
    rw [if_pos hpos]

/-- What C6 asserts of the top-groups report: at most 10 rows, ordered
by student count then payment rate (both descending), zero-student
groups get rate exactly 0 (no division), non-empty groups get the
rounded `paid/total*100` percentage. -/
def topGroupsOK (st : Store) : Prop :=
  (topGroups st).length ≤ 10 ∧
  List.Pairwise (fun a b => topGroupsLE a b = true) (topGroups st) ∧
  ∀ row ∈ topGroups st,
    (row.student_count = 0 → row.payment_rate = 0) ∧
    (0 < row.student_count →
      row.payment_rate =
        round2 ((row.paid_students : ℚ) / (row.student_count : ℚ) * 100))

/-- Claim C6: For every store, the top-groups report satisfies
`topGroupsOK`: at most 10 rows, sorted by student count descending then
payment rate descending, and the payment rate is 0 for empty groups and
the 2-decimal-rounded percentage otherwise. -/
theorem top_groups_report (st : Store) : topGroupsOK st := by
  unfold topGroupsOK topGroups
  refine ⟨List.length_take_le 10 _, ?_, ?_⟩
  · exact List.Pairwise.take
      (List.sorted_mergeSort topGroupsLE_trans topGroupsLE_total _)
  · intro row hrow
    have h1 := List.mem_of_mem_take hrow
    rw [List.mem_mergeSort, List.mem_map] at h1
    obtain ⟨g, -, rfl⟩ := h1
    exact groupRow_rate st.students g

end AdminPanel
